import Mathlib

/-!
Verification development for the SatelliteOrbitVisualizer core
(`utils/tle_parser.py`, `utils/time_utils.py`, `utils/anomalies.py`,
`utils/propagate.py`).

Modelling conventions:
* Python strings are modelled through their code-point lists (`String.data`);
  Python slicing `s[a:b]`, `strip`, `startswith`, `splitlines` are
  re-implemented on `List Char`.
* Python `int(...)` / `float(...)` conversions are modelled as exact
  decimal parsers into `ℤ` / `ℚ` (`pyInt`, `pyFloat`); a failing conversion
  (Python `ValueError`) is modelled by `Option`/`Except`.  The special
  accepted spellings `inf` / `nan` / underscore separators never occur in
  fixed-column TLE data and are outside the modelled grammar.
* Real-valued floating-point arithmetic is idealised as `ℝ`; `math.sin`,
  `math.cos`, `math.atan2`, `**` are `Real.sin`, `Real.cos`, `Complex.arg`
  (for `atan2`) and `Real.rpow`.  Python float `%` (floored modulus) is
  `pymod`.  A Python `ZeroDivisionError` on float division is modelled by
  an explicit `Except` error where the claims exercise it (the `mu / n²`
  division of the parser); elsewhere division never hits a zero
  denominator on the claims' inputs and `ℝ`'s total division is used.
-/

/-- Error kinds the Python core can raise: `ValueError` from `int()` /
`float()` on malformed text, `ZeroDivisionError` from float division by
zero.  (The repository defines no custom exception class.) -/
inductive PyErr where
  | valueError : PyErr
  | zeroDivisionError : PyErr
deriving DecidableEq, Repr

/-- Test whether an `Except` value is a success. -/
def exceptOk : Except ε α → Bool
  | .ok _ => true
  | .error _ => false

instance exceptDecEq {ε α : Type} [DecidableEq ε] [DecidableEq α] :
    DecidableEq (Except ε α) := fun a b =>
  match a, b with
  | .error e, .error f =>
    if h : e = f then .isTrue (by rw [h]) else .isFalse (fun c => h (by injection c))
  | .ok x, .ok y =>
    if h : x = y then .isTrue (by rw [h]) else .isFalse (fun c => h (by injection c))
  | .error _, .ok _ => .isFalse (fun c => by injection c)
  | .ok _, .error _ => .isFalse (fun c => by injection c)

/-- Python `str.strip()` on a code-point list: drop leading and trailing
whitespace. -/
def stripChars (cs : List Char) : List Char :=
  ((cs.dropWhile Char.isWhitespace).reverse.dropWhile Char.isWhitespace).reverse

/-- Python `str.strip()` on strings. -/
def pyStrip (s : String) : String :=
  ⟨stripChars s.data⟩

/-- Python `s.rstrip("\n")`: drop trailing newline characters only. -/
def rstripNl (s : String) : String :=
  ⟨(s.data.reverse.dropWhile (· == '\n')).reverse⟩

/-- Python slicing `s[a:b]` for `0 ≤ a ≤ b` (indices clamp to the length,
exactly as in Python). -/
def pySlice (s : String) (a b : Nat) : String :=
  ⟨(s.data.drop a).take (b - a)⟩

/-- Check that the code-point list `p` is an initial segment of `s`
(Python `startswith` on the underlying text). -/
def beginsList : List Char → List Char → Bool
  | [], _ => true
  | _ :: _, [] => false
  | p :: ps, c :: cs => p == c && beginsList ps cs

/-- Python `s.startswith(pat)`. -/
def strBegins (s pat : String) : Bool :=
  beginsList pat.data s.data

/-- Value of a digit list read in base 10. -/
def digitsToNat (ds : List Char) : Nat :=
  ds.foldl (fun a c => 10 * a + (c.toNat - 48)) 0

/-- Consume an optional leading sign; return (isNegative, rest). -/
def splitSign : List Char → Bool × List Char
  | '-' :: cs => (true, cs)
  | '+' :: cs => (false, cs)
  | cs => (false, cs)

/-- Python `int(s)`: strip whitespace, optional sign, then a nonempty
run of decimal digits and nothing else; `none` models `ValueError`. -/
def pyInt (s : String) : Option Int :=
  let cs := stripChars s.data
  let sr := splitSign cs
  let ds := sr.2
  if ds.isEmpty || !ds.all Char.isDigit then none
  else some (if sr.1 then -(digitsToNat ds : Int) else (digitsToNat ds : Int))

/-- Signed exact rational `±(num/den)` (the value of a finite decimal
literal), built with `mkRat` so that it evaluates by kernel reduction. -/
def ratOfParts (neg : Bool) (num den : Nat) : ℚ :=
  if neg then -(mkRat num den) else mkRat num den

/-- Python `float(s)` on finite decimal literals: optional surrounding
whitespace, optional sign, digits with at most one point (at least one
digit overall), optional exponent part.  `none` models `ValueError`. -/
def pyFloat (s : String) : Option ℚ :=
  let cs := stripChars s.data
  let sr := splitSign cs
  let ipSplit := sr.2.span Char.isDigit
  let fpSplit :=
    match ipSplit.2 with
    | '.' :: rest => rest.span Char.isDigit
    | other => (([] : List Char), other)
  if ipSplit.1.isEmpty && fpSplit.1.isEmpty then none
  else
    let num : Nat := digitsToNat ipSplit.1 * 10 ^ fpSplit.1.length + digitsToNat fpSplit.1
    let den : Nat := 10 ^ fpSplit.1.length
    match fpSplit.2 with
    | [] => some (ratOfParts sr.1 num den)
    | e :: rest =>
      if e == 'e' || e == 'E' then
        let esr := splitSign rest
        let edSplit := esr.2.span Char.isDigit
        if edSplit.1.isEmpty || !edSplit.2.isEmpty then none
        else
          let ex := digitsToNat edSplit.1
          if esr.1 then some (ratOfParts sr.1 num (den * 10 ^ ex))
          else some (ratOfParts sr.1 (num * 10 ^ ex) den)
      else none

/-- Orbital element fields extracted by `parse_tle` before the derived
semi-major axis is attached (the dictionary entries of the Python code
other than `sma_km`, with the numeric fields exact). -/
structure TleData where
  satnum : String
  epoch_year : Int
  epoch_day : ℚ
  inclination : ℚ
  raan : ℚ
  eccentricity : ℚ
  argp : ℚ
  mean_anom : ℚ
  mean_motion_rev_per_day : ℚ
deriving DecidableEq, Repr

/-- Fixed-column field extraction of `parse_tle` (tle_parser.py lines
5–32): sanitize with `rstrip("\n")`, cut each field at its fixed columns,
convert with `int` / `float`, and apply the 57-pivot to the 2-digit year.
`none` models the `ValueError` raised by a failing conversion. -/
def parse_fields_opt (line1 line2 : String) : Option TleData := do
  let l1 := rstripNl line1
  let l2 := rstripNl line2
  let satnum := pyStrip (pySlice l1 2 7)
  let yy ← pyInt (pySlice l1 18 20)
  let epoch_day ← pyFloat (pySlice l1 20 32)
  let epoch_year := if yy < 57 then yy + 2000 else yy + 1900
  let inc ← pyFloat (pySlice l2 8 16)
  let raan ← pyFloat (pySlice l2 17 25)
  let ecc ← pyFloat ("0." ++ pyStrip (pySlice l2 26 33))
  let argp ← pyFloat (pySlice l2 34 42)
  let mean_anom ← pyFloat (pySlice l2 43 51)
  let mean_motion ← pyFloat (pySlice l2 52 63)
  pure ⟨satnum, epoch_year, epoch_day, inc, raan, ecc, argp, mean_anom, mean_motion⟩

/-- Field extraction of `parse_tle` as an `Except`: a failing `int()` /
`float()` conversion raises `ValueError`. -/
def parse_tle_data (line1 line2 : String) : Except PyErr TleData :=
  match parse_fields_opt line1 line2 with
  | none => .error .valueError
  | some d => .ok d

/-- All eight fixed-column numeric conversions of `parse_tle` succeed. -/
def allFieldsNumeric (line1 line2 : String) : Bool :=
  let l1 := rstripNl line1
  let l2 := rstripNl line2
  (pyInt (pySlice l1 18 20)).isSome &&
  (pyFloat (pySlice l1 20 32)).isSome &&
  (pyFloat (pySlice l2 8 16)).isSome &&
  (pyFloat (pySlice l2 17 25)).isSome &&
  (pyFloat ("0." ++ pyStrip (pySlice l2 26 33))).isSome &&
  (pyFloat (pySlice l2 34 42)).isSome &&
  (pyFloat (pySlice l2 43 51)).isSome &&
  (pyFloat (pySlice l2 52 63)).isSome

/-- Python `text.splitlines()` restricted to `'\n'` boundaries (the only
boundary exercised here; `'\r'` is removed by the subsequent `strip`). -/
def splitNl : List Char → List (List Char)
  | [] => [[]]
  | c :: rest =>
    if c == '\n' then [] :: splitNl rest
    else
      match splitNl rest with
      | [] => [[c]]
      | l :: ls => (c :: l) :: ls

/-- The line preprocessing of `parse_tle_lines`:
`[ln.strip() for ln in text.splitlines() if ln.strip() != ""]`. -/
def prepLines (text : String) : List String :=
  (((splitNl text.data).map stripChars).filter (fun l => !l.isEmpty)).map
    (fun l => (⟨l⟩ : String))

/-- Synthesized satellite name `f"SAT_{k}"`. -/
def satName (k : Nat) : String :=
  "SAT_" ++ toString k

/-- The greedy scanning loop of `parse_tle_lines` (tle_parser.py lines
63–81).  The second argument is `len(sats)`, the number of satellites
found so far. -/
def scanTle : List String → Nat → List (String × String × String)
  | a :: b :: c :: rest, k =>
    if strBegins b "1 " && strBegins c "2 " then
      (a, b, c) :: scanTle rest (k + 1)
    else if strBegins a "1 " && strBegins b "2 " then
      (satName (k + 1), a, b) :: scanTle (c :: rest) (k + 1)
    else
      scanTle (b :: c :: rest) k
  | [a, b], k =>
    if strBegins a "1 " && strBegins b "2 " then [(satName (k + 1), a, b)]
    else []
  | _, _ => []

/-- `parse_tle_lines`: split raw text into satellite (name, line1, line2)
triples. -/
def parse_tle_lines (text : String) : List (String × String × String) :=
  scanTle (prepLines text) 0

/-- Python `int(q)` on a real quantity: truncation toward zero. -/
def pyTrunc (q : ℚ) : Int :=
  if 0 ≤ q then ⌊q⌋ else ⌈q⌉

/-- `build_time_array` (time_utils.py lines 13–19): timestamps are
modelled as rational seconds, `start_dt + timedelta(seconds=i*s)` becomes
`start_dt + i*s`.  Python `//` is floored division (`Int.fdiv`). -/
def build_time_array (start_dt : ℚ) (numdays : ℚ) (sample_seconds : Int) : List ℚ :=
  let total_seconds : Int := pyTrunc (numdays * 24 * 3600)
  let steps : Int := max 2 (Int.fdiv total_seconds sample_seconds + 1)
  (List.range steps.toNat).map (fun i : Nat => start_dt + (i : ℚ) * (sample_seconds : ℚ))

/-! ### Real-valued layer: anomalies.py and propagate.py -/

/-- Python float `%` (floored modulus): `x % y = x - y*floor(x/y)`. -/
noncomputable def pymod (x y : ℝ) : ℝ :=
  x - y * ⌊x / y⌋

/-- Python `math.radians(x) = x·π/180`. -/
noncomputable def radiansR (x : ℝ) : ℝ :=
  x * Real.pi / 180

/-- Python `math.degrees(x) = x·180/π`. -/
noncomputable def degreesR (x : ℝ) : ℝ :=
  x * 180 / Real.pi

/-- Python `math.atan2(y, x)`: the argument of the point `(x, y)`,
in `(-π, π]` with `atan2 0 0 = 0`. -/
noncomputable def atan2 (y x : ℝ) : ℝ :=
  Complex.arg ⟨x, y⟩

/-- One Newton-Raphson update for Kepler's equation
`f(E) = E - ecc·sin E - m`: `E ← E - f(E)/f'(E)`. -/
noncomputable def newtonStep (ecc m E : ℝ) : ℝ :=
  E - (E - ecc * Real.sin E - m) / (1 - ecc * Real.cos E)

/-- The `for _ in range(numiter)` loop of `newtonm` (anomalies.py lines
27–33): update `E ← E - dE` and break once `|dE| < 1e-12`; the fuel
argument is the number of remaining iterations. -/
noncomputable def kepLoop (ecc m : ℝ) : Nat → ℝ → ℝ
  | 0, E => E
  | k + 1, E =>
    let dE := (E - ecc * Real.sin E - m) / (1 - ecc * Real.cos E)
    let E2 := E - dE
    if |dE| < 1e-12 then E2 else kepLoop ecc m k E2

/-- `newtonm` (anomalies.py lines 5–38): solve Kepler's equation,
returning `(E, nu)` in radians.  Hyperbolic fallback for
`ecc > 1 + 1e-8`; otherwise Newton-Raphson from `E₀ = m` (`ecc < 0.8`)
or `E₀ = π`, at most 100 iterations, then true anomaly by `atan2`. -/
noncomputable def newtonm (ecc m : ℝ) : ℝ × ℝ :=
  if 1 + 1e-8 < ecc then
    let E := m / (ecc - 1)
    (E, 2 * Real.arctan (Real.sqrt ((ecc + 1) / (ecc - 1)) * Real.tanh (E / 2)))
  else
    let E0 := if ecc < 0.8 then m else Real.pi
    let E := kepLoop ecc m 100 E0
    let sinv := Real.sqrt (1 - ecc * ecc) * Real.sin E / (1 - ecc * Real.cos E)
    let cosv := (Real.cos E - ecc) / (1 - ecc * Real.cos E)
    (E, atan2 sinv cosv)

/-- `solve_true_anomaly` (anomalies.py lines 41–50): mean anomaly in
degrees to true anomaly in degrees, wrapped like MATLAB. -/
noncomputable def solve_true_anomaly (ecc M_deg : ℝ) : ℝ :=
  let M := pymod (radiansR M_deg) (2 * Real.pi)
  let nu := (newtonm ecc M).2
  let deg := degreesR nu
  pymod (deg + 180) 360 - 180

/-- Gravitational parameter `MU = 398600.4418 km³/s²` (propagate.py). -/
noncomputable def MU : ℝ :=
  398600.4418

/-- `mean_motion_revday_to_rad_s` (propagate.py lines 9–10). -/
noncomputable def mean_motion_revday_to_rad_s (mean_motion_rev_per_day : ℝ) : ℝ :=
  mean_motion_rev_per_day * 2 * Real.pi / 86400

/-- `kepler_to_eci` (propagate.py lines 12–48): orbital elements and true
anomaly to an ECI position, rotating perifocal coordinates by the nine
explicitly written scalar entries of `Rz(raan)·Rx(inc)·Rz(argp)`. -/
noncomputable def kepler_to_eci (a_km e inc_deg raan_deg argp_deg nu_rad : ℝ) :
    ℝ × ℝ × ℝ :=
  let inc := radiansR inc_deg
  let raan := radiansR raan_deg
  let argp := radiansR argp_deg
  let _r := a_km * (1 - e * Real.cos (newtonm e 0).1)
  let p := a_km * (1 - e * e)
  let r_km := p / (1 + e * Real.cos nu_rad)
  let x_pf := r_km * Real.cos nu_rad
  let y_pf := r_km * Real.sin nu_rad
  let z_pf : ℝ := 0
  let cos_raan := Real.cos raan
  let sin_raan := Real.sin raan
  let cos_inc := Real.cos inc
  let sin_inc := Real.sin inc
  let cos_argp := Real.cos argp
  let sin_argp := Real.sin argp
  let R11 := cos_raan * cos_argp - sin_raan * sin_argp * cos_inc
  let R12 := -cos_raan * sin_argp - sin_raan * cos_argp * cos_inc
  let R13 := sin_raan * sin_inc
  let R21 := sin_raan * cos_argp + cos_raan * sin_argp * cos_inc
  let R22 := -sin_raan * sin_argp + cos_raan * cos_argp * cos_inc
  let R23 := -cos_raan * sin_inc
  let R31 := sin_argp * sin_inc
  let R32 := cos_argp * sin_inc
  let R33 := cos_inc
  let x := R11 * x_pf + R12 * y_pf + R13 * z_pf
  let y := R21 * x_pf + R22 * y_pf + R23 * z_pf
  let z := R31 * x_pf + R32 * y_pf + R33 * z_pf
  (x, y, z)

/-- The accumulation loop of `propagate_kepler`: one `(x, y, z)` sample
appended per elapsed time, in input order. -/
noncomputable def propagateLoop (step : ℝ → ℝ × ℝ × ℝ) :
    List ℝ → List ℝ × List ℝ × List ℝ
  | [] => ([], [], [])
  | dt :: rest =>
    let p := step dt
    let r := propagateLoop step rest
    (p.1 :: r.1, p.2.1 :: r.2.1, p.2.2 :: r.2.2)

/-- `propagate_kepler` (propagate.py lines 50–66): advance the mean
anomaly linearly, solve for the true anomaly, convert to ECI, for every
requested elapsed time. -/
noncomputable def propagate_kepler (a_km e inc_deg raan_deg argp_deg
    mean_anom_deg mean_motion_rev_per_day : ℝ)
    (times_seconds_from_epoch : List ℝ) : List ℝ × List ℝ × List ℝ :=
  let n_rad_s := mean_motion_revday_to_rad_s mean_motion_rev_per_day
  let M0 := radiansR mean_anom_deg
  propagateLoop
    (fun dt =>
      kepler_to_eci a_km e inc_deg raan_deg argp_deg
        ((newtonm e (pymod (M0 + n_rad_s * dt) (2 * Real.pi))).2))
    times_seconds_from_epoch

/-- Full record returned by `parse_tle`: the parsed fields plus the
derived semi-major axis (a real number). -/
structure TleStruct extends TleData where
  sma_km : ℝ

/-- `parse_tle` (tle_parser.py lines 5–54): parse both lines and attach
`sma = (mu / n²)^(1/3)` derived from the mean motion.  The Python float
division `mu / (n_rad_s**2)` raises `ZeroDivisionError` when the parsed
mean motion is zero; that failure is modelled explicitly. -/
noncomputable def parse_tle (line1 line2 : String) : Except PyErr TleStruct :=
  match parse_tle_data line1 line2 with
  | .error e => .error e
  | .ok d =>
    if d.mean_motion_rev_per_day = 0 then .error .zeroDivisionError
    else
      let n_rad_s : ℝ := (d.mean_motion_rev_per_day : ℚ) * 2 * Real.pi / 86400
      .ok { toTleData := d, sma_km := (MU / n_rad_s ^ 2) ^ ((1 : ℝ) / 3) }

/-! ### Concrete inputs and specification-side definitions -/

/-- Reference ISS TLE, line 1 (spec §8). -/
def issL1 : String :=
  "1 25544U 98067A   20045.18587073  .00000842  00000-0  23694-4 0  9996"

/-- Reference ISS TLE, line 2 (spec §8). -/
def issL2 : String :=
  "2 25544  51.6444  23.2062 0005700  82.6579  83.8481 15.49285274216567"

/-- Short sample element line starting with `"1 "`. -/
def tleSampleL1 : String := "1 25544U 98067A"

/-- Short sample element line starting with `"2 "`. -/
def tleSampleL2 : String := "2 25544  51.6444"

/-- Sample input: name line followed by the two element lines. -/
def namedSample : String := "ISS (ZARYA)\n1 25544U 98067A\n2 25544  51.6444"

/-- Sample input: the two element lines only. -/
def pairSample : String := "1 25544U 98067A\n2 25544  51.6444"

/-- Sample input with no valid element-line pair. -/
def straySample : String := "alpha\nbeta\ngamma"

/-- Reference ISS element data as parsed (exact rationals). -/
def issData : TleData :=
  ⟨"25544", 2020, mkRat 4518587073 100000000, mkRat 516444 10000,
   mkRat 232062 10000, mkRat 57 100000, mkRat 826579 10000,
   mkRat 838481 10000, mkRat 1549285274 100000000⟩

/-- ISS line 1 truncated to 31 characters — shorter than the 32-column
span that the epoch-day field nominally occupies. -/
def issL1trunc : String := "1 25544U 98067A   20045.1858707"

/-- The full parse result for the reference ISS TLE. -/
noncomputable def issStruct : TleStruct :=
  { toTleData := issData,
    sma_km := (MU / (((issData.mean_motion_rev_per_day : ℚ) : ℝ)
        * 2 * Real.pi / 86400) ^ 2) ^ ((1 : ℝ) / 3) }

/-- ISS line 2 with the mean-motion field replaced by zero. -/
def zeroMmL2 : String :=
  "2 25544  51.6444  23.2062 0005700  82.6579  83.8481 00.00000000216567"

/-- Standard rotation matrix about the z-axis. -/
noncomputable def Rz (θ : ℝ) : Matrix (Fin 3) (Fin 3) ℝ :=
  !![Real.cos θ, -Real.sin θ, 0;
     Real.sin θ, Real.cos θ, 0;
     0, 0, 1]

/-- Standard rotation matrix about the x-axis. -/
noncomputable def Rx (θ : ℝ) : Matrix (Fin 3) (Fin 3) ℝ :=
  !![1, 0, 0;
     0, Real.cos θ, -Real.sin θ;
     0, Real.sin θ, Real.cos θ]

/-- Modelled from the spec (§4.4): one propagation sample — mean motion
`n = mm·2π/86400`, mean anomaly `M(t) = (M₀ + n·t) mod 2π`, true anomaly
from the solver, radius `r = p/(1 + e·cos ν)` with `p = a(1−e²)`,
perifocal position `(r·cos ν, r·sin ν, 0)` rotated by the composite
matrix `Rz(Ω)·Rx(i)·Rz(ω)`. -/
noncomputable def eciSpecSample (a_km e inc_deg raan_deg argp_deg
    mean_anom_deg mm t : ℝ) : Fin 3 → ℝ :=
  let n := mm * 2 * Real.pi / 86400
  let M := pymod (radiansR mean_anom_deg + n * t) (2 * Real.pi)
  let nu := (newtonm e M).2
  let p := a_km * (1 - e * e)
  let r := p / (1 + e * Real.cos nu)
  (Rz (radiansR raan_deg) * Rx (radiansR inc_deg) * Rz (radiansR argp_deg)).mulVec
    ![r * Real.cos nu, r * Real.sin nu, 0]

/-! ### C8: time grid -/

/-- C8: for `durationDays > 0` and `stepSeconds > 0`, `build_time_array`
yields the arithmetic progression `start + i·step` with at least two
entries; when `step ≤ floor(durationDays·86400)` it holds exactly the
multiples of `step` up to and including that bound; and one day at 3600 s
steps gives exactly the 25 offsets `0, 3600, …, 86400`. -/
theorem build_time_grid_spec (start_dt numdays : ℚ) (s : Int)
    (hnd : 0 < numdays) (hs : 0 < s) :
    2 ≤ (build_time_array start_dt numdays s).length
    ∧ (∀ i, (hi : i < (build_time_array start_dt numdays s).length) →
        (build_time_array start_dt numdays s)[i] = start_dt + (i : ℚ) * (s : ℚ))
    ∧ (s ≤ pyTrunc (numdays * 24 * 3600) →
        (build_time_array start_dt numdays s).length
          = (pyTrunc (numdays * 24 * 3600)).toNat / s.toNat + 1
        ∧ ∀ k : Nat, (k < (build_time_array start_dt numdays s).length
            ↔ k * s.toNat ≤ (pyTrunc (numdays * 24 * 3600)).toNat))
    ∧ build_time_array start_dt 1 3600
        = (List.range 25).map (fun i : Nat => start_dt + (i : ℚ) * 3600) := by
  have hTq : (0 : ℚ) < numdays * 24 * 3600 := by positivity
  have hT0 : (0 : Int) ≤ pyTrunc (numdays * 24 * 3600) := by
    unfold pyTrunc
    rw [if_pos hTq.le]
    exact Int.floor_nonneg.2 hTq.le
  set T : Int := pyTrunc (numdays * 24 * 3600) with hT
  set TN : Nat := T.toNat with hTN
  set SN : Nat := s.toNat with hSN
  have hTcast : T = (TN : Int) := by omega
  have hscast : s = (SN : Int) := by omega
  have hSNpos : 0 < SN := by omega
  have e1 : Int.fdiv T s = ((TN / SN : Nat) : Int) := by
    rw [hTcast, hscast]
    exact (Int.ofNat_fdiv TN SN).symm
  have hlen : (build_time_array start_dt numdays s).length
      = (max 2 (Int.fdiv T s + 1)).toNat := by
    simp [build_time_array]
  refine ⟨?_, ?_, ?_, ?_⟩
  · rw [hlen, e1]
    have h2 : (2 : Int) ≤ max 2 (((TN / SN : Nat) : Int) + 1) := le_max_left _ _
    omega
  · intro i hi
    simp [build_time_array]
  · intro hsT
    have hge1 : 1 ≤ TN / SN := by
      rw [Nat.le_div_iff_mul_le hSNpos]
      omega
    have hlen2 : (build_time_array start_dt numdays s).length = TN / SN + 1 := by
      rw [hlen, e1]
      omega
    refine ⟨hlen2, fun k => ?_⟩
    rw [hlen2]
    constructor
    · intro hk
      exact (Nat.le_div_iff_mul_le hSNpos).1 (by omega)
    · intro hk
      have hk2 : k ≤ TN / SN := (Nat.le_div_iff_mul_le hSNpos).2 hk
      omega
  · have h86400 : pyTrunc ((1 : ℚ) * 24 * 3600) = 86400 := by
      have h1 : ((1 : ℚ) * 24 * 3600) = ((86400 : Int) : ℚ) := by norm_num
      unfold pyTrunc
      rw [h1, if_pos (by norm_num), Int.floor_intCast]
    have h25 : (max 2 (Int.fdiv 86400 3600 + 1)).toNat = 25 := by decide
    simp only [build_time_array]
    rw [h86400, h25]
    apply List.map_congr_left
    intro i _
    norm_num

/-- Witness for C8 at `start = 0`, `durationDays = 1`, `stepSeconds = 3600`. -/
theorem build_time_grid_spec_witness :
    build_time_array 0 1 3600
      = (List.range 25).map (fun i : Nat => (0 : ℚ) + (i : ℚ) * 3600) :=
  (build_time_grid_spec 0 1 3600 (by norm_num) (by norm_num)).2.2.2

/-! ### C7 and C10: multi-TLE splitting -/

/-- Split a true Boolean conjunction. -/
theorem andSplit {a b : Bool} (h : (a && b) = true) : a = true ∧ b = true := by
  constructor <;> simp_all

/-- Join two true Booleans into a conjunction. -/
theorem andJoin {a b : Bool} (h1 : a = true) (h2 : b = true) : (a && b) = true := by
  simp_all

/-- Every triple produced by the scanning loop has `line1` starting with
`"1 "` and `line2` starting with `"2 "`, whatever the input lines. -/
theorem scanTle_mem (l : List String) (k : Nat) :
    ∀ t ∈ scanTle l k, strBegins t.2.1 "1 " = true ∧ strBegins t.2.2 "2 " = true := by
  induction l, k using scanTle.induct with
  | case1 a b c rest k h ih =>
    intro t ht
    rw [scanTle, if_pos h] at ht
    rcases List.mem_cons.1 ht with rfl | ht2
    · exact andSplit h
    · exact ih t ht2
  | case2 a b c rest k h1 h2 ih =>
    intro t ht
    rw [scanTle, if_neg h1, if_pos h2] at ht
    rcases List.mem_cons.1 ht with rfl | ht2
    · exact andSplit h2
    · exact ih t ht2
  | case3 a b c rest k h1 h2 ih =>
    intro t ht
    rw [scanTle, if_neg h1, if_neg h2] at ht
    exact ih t ht
  | case4 a b k h =>
    intro t ht
    rw [scanTle, if_pos h] at ht
    rcases List.mem_cons.1 ht with rfl | ht2
    · exact andSplit h
    · simp at ht2
  | case5 a b k h =>
    intro t ht
    rw [scanTle, if_neg h] at ht
    simp at ht
  | case6 l x h1 h2 =>
    intro t ht
    match l, h1, h2 with
    | [], _, _ => simp [scanTle] at ht
    | [a], _, _ => simp [scanTle] at ht
    | [a, b], _, h2 => exact (h2 a b rfl).elim
    | a :: b :: c :: rest, h1, _ => exact (h1 a b c rest rfl).elim

/-- C10: `parse_tle_lines` is a total function of the raw text (the
embedding is a terminating Lean function, so no input can make it fail),
and every triple it returns is well-formed: the second component starts
with `"1 "` and the third with `"2 "`. -/
theorem parse_tle_lines_total_wellformed (text : String) :
    parse_tle_lines "" = []
    ∧ ∀ t ∈ parse_tle_lines text,
        strBegins t.2.1 "1 " = true ∧ strBegins t.2.2 "2 " = true :=
  ⟨by decide, fun t ht => scanTle_mem (prepLines text) 0 t ht⟩

/-- Witness for C10 on the two-line input `"1 a\n2 b"`. -/
theorem parse_tle_lines_total_wellformed_witness :
    strBegins "1 a" "1 " = true ∧ strBegins "2 b" "2 " = true :=
  (parse_tle_lines_total_wellformed "1 a\n2 b").2 (satName 1, "1 a", "2 b") (by decide)

/-- C7: the greedy scan of `splitMultiTleText`: a line whose two
successors start with `"1 "` / `"2 "` becomes a named triple (3 lines
consumed); otherwise a `"1 "`-line whose successor is a `"2 "`-line
becomes a `SAT_k` triple with `k` the 1-based count of satellites found
so far (2 lines consumed); any other line is skipped; a name line plus
two element lines yield one verbatim-named triple; two bare element lines
yield one `SAT_1` triple; text with no valid pair yields `[]`. -/
theorem split_multi_tle_spec :
    (∀ (a b c : String) (rest : List String) (k : Nat),
        strBegins b "1 " = true → strBegins c "2 " = true →
        scanTle (a :: b :: c :: rest) k = (a, b, c) :: scanTle rest (k + 1))
    ∧ (∀ (a b c : String) (rest : List String) (k : Nat),
        ¬(strBegins b "1 " = true ∧ strBegins c "2 " = true) →
        strBegins a "1 " = true → strBegins b "2 " = true →
        scanTle (a :: b :: c :: rest) k
          = (satName (k + 1), a, b) :: scanTle (c :: rest) (k + 1))
    ∧ (∀ (a b : String) (k : Nat),
        strBegins a "1 " = true → strBegins b "2 " = true →
        scanTle [a, b] k = [(satName (k + 1), a, b)])
    ∧ (∀ (a b c : String) (rest : List String) (k : Nat),
        ¬(strBegins b "1 " = true ∧ strBegins c "2 " = true) →
        ¬(strBegins a "1 " = true ∧ strBegins b "2 " = true) →
        scanTle (a :: b :: c :: rest) k = scanTle (b :: c :: rest) k)
    ∧ parse_tle_lines namedSample = [("ISS (ZARYA)", tleSampleL1, tleSampleL2)]
    ∧ parse_tle_lines pairSample = [(satName 1, tleSampleL1, tleSampleL2)]
    ∧ satName 1 = "SAT_1"
    ∧ parse_tle_lines straySample = [] := by
  refine ⟨?_, ?_, ?_, ?_, by decide, by decide, by decide, by decide⟩
  · intro a b c rest k h1 h2
    rw [scanTle, if_pos (andJoin h1 h2)]
  · intro a b c rest k h0 h1 h2
    rw [scanTle, if_neg (fun hh => h0 (andSplit hh)),
      if_pos (andJoin h1 h2)]
  · intro a b k h1 h2
    rw [scanTle, if_pos (andJoin h1 h2)]
  · intro a b c rest k h0 h0'
    rw [scanTle, if_neg (fun hh => h0 (andSplit hh)),
      if_neg (fun hh => h0' (andSplit hh))]

/-- Witness for C7: the bare-pair branch at concrete lines and `k = 0`. -/
theorem split_multi_tle_spec_witness :
    scanTle ["1 a", "2 b"] 0 = [(satName 1, "1 a", "2 b")] :=
  split_multi_tle_spec.2.2.1 "1 a" "2 b" 0 (by decide) (by decide)

/-! ### C6: parser error behaviour -/

/-- Field extraction succeeds exactly when all eight numeric conversions
succeed. -/
theorem parse_fields_isSome (l1 l2 : String) :
    (parse_fields_opt l1 l2).isSome = allFieldsNumeric l1 l2 := by
  unfold parse_fields_opt allFieldsNumeric
  cases h1 : pyInt (pySlice (rstripNl l1) 18 20) with
  | none => simp [h1]
  | some yy =>
    cases h2 : pyFloat (pySlice (rstripNl l1) 20 32) with
    | none => simp [h1, h2]
    | some q2 =>
      cases h3 : pyFloat (pySlice (rstripNl l2) 8 16) with
      | none => simp [h1, h2, h3]
      | some q3 =>
        cases h4 : pyFloat (pySlice (rstripNl l2) 17 25) with
        | none => simp [h1, h2, h3, h4]
        | some q4 =>
          cases h5 : pyFloat ("0." ++ pyStrip (pySlice (rstripNl l2) 26 33)) with
          | none => simp [h1, h2, h3, h4, h5]
          | some q5 =>
            cases h6 : pyFloat (pySlice (rstripNl l2) 34 42) with
            | none => simp [h1, h2, h3, h4, h5, h6]
            | some q6 =>
              cases h7 : pyFloat (pySlice (rstripNl l2) 43 51) with
              | none => simp [h1, h2, h3, h4, h5, h6, h7]
              | some q7 =>
                cases h8 : pyFloat (pySlice (rstripNl l2) 52 63) with
                | none => simp [h1, h2, h3, h4, h5, h6, h7, h8]
                | some q8 => simp [h1, h2, h3, h4, h5, h6, h7, h8]

/-- C6 (amended): `parse_tle` raises `ValueError` exactly when one of the
eight fixed-column numeric fields fails to convert (in particular when a
line is so short that a required field is empty); the error is propagated
unchanged by `parse_tle` — never recovered; when all fields convert, the
field extraction succeeds. -/
theorem parse_error_exactly_on_bad_fields (l1 l2 : String) :
    (parse_tle_data l1 l2 = .error .valueError ↔ allFieldsNumeric l1 l2 = false)
    ∧ (∀ e, parse_tle_data l1 l2 = .error e → parse_tle l1 l2 = .error e)
    ∧ (allFieldsNumeric l1 l2 = true → ∃ d, parse_tle_data l1 l2 = .ok d) := by
  have hs := parse_fields_isSome l1 l2
  refine ⟨?_, ?_, ?_⟩
  · cases hp : parse_fields_opt l1 l2 with
    | none =>
      rw [hp] at hs
      simp [parse_tle_data, hp, ← hs]
    | some d =>
      rw [hp] at hs
      simp [parse_tle_data, hp, ← hs]
  · intro e he
    unfold parse_tle
    rw [he]
  · intro hall
    rw [hall] at hs
    cases hp : parse_fields_opt l1 l2 with
    | none => rw [hp] at hs; simp at hs
    | some d => exact ⟨d, by simp [parse_tle_data, hp]⟩

/-- Witness for C6 (amended): empty lines have no parsable fields, and
the `ValueError` propagates out of `parse_tle`. -/
theorem parse_error_exactly_on_bad_fields_witness :
    parse_tle "" "" = .error .valueError :=
  (parse_error_exactly_on_bad_fields "" "").2.1 .valueError (by decide)

/-- Counterexample to C6 as stated: a line 1 of only 31 characters —
shorter than the 32-column minimum span — still parses successfully,
because the truncated epoch-day field is still numeric. -/
theorem short_line_still_parses :
    issL1trunc.length = 31
    ∧ exceptOk (parse_tle issL1trunc issL2) = true := by
  have hd : parse_tle_data issL1trunc issL2
      = .ok { issData with epoch_day := mkRat 451858707 10000000 } := by decide
  refine ⟨by decide, ?_⟩
  unfold parse_tle
  rw [hd]
  rfl

/-! ### C5: parsed elements and derived semi-major axis -/

/-- When field extraction succeeds, the epoch year comes from the 2-digit
field at columns [18,20) of line 1 expanded by the 57-pivot. -/
theorem parse_fields_epoch_pivot (l1 l2 : String) (d : TleData)
    (h : parse_fields_opt l1 l2 = some d) :
    ∃ yy : Int, pyInt (pySlice (rstripNl l1) 18 20) = some yy
      ∧ d.epoch_year = if yy < 57 then yy + 2000 else yy + 1900 := by
  unfold parse_fields_opt at h
  cases h1 : pyInt (pySlice (rstripNl l1) 18 20) with
  | none => simp [h1] at h
  | some yy =>
    simp only [h1, Option.some_bind] at h
    refine ⟨yy, rfl, ?_⟩
    cases h2 : pyFloat (pySlice (rstripNl l1) 20 32) with
    | none => simp [h2] at h
    | some q2 =>
      simp only [h2, Option.some_bind] at h
      cases h3 : pyFloat (pySlice (rstripNl l2) 8 16) with
      | none => simp [h3] at h
      | some q3 =>
        simp only [h3, Option.some_bind] at h
        cases h4 : pyFloat (pySlice (rstripNl l2) 17 25) with
        | none => simp [h4] at h
        | some q4 =>
          simp only [h4, Option.some_bind] at h
          cases h5 : pyFloat ("0." ++ pyStrip (pySlice (rstripNl l2) 26 33)) with
          | none => simp [h5] at h
          | some q5 =>
            simp only [h5, Option.some_bind] at h
            cases h6 : pyFloat (pySlice (rstripNl l2) 34 42) with
            | none => simp [h6] at h
            | some q6 =>
              simp only [h6, Option.some_bind] at h
              cases h7 : pyFloat (pySlice (rstripNl l2) 43 51) with
              | none => simp [h7] at h
              | some q7 =>
                simp only [h7, Option.some_bind] at h
                cases h8 : pyFloat (pySlice (rstripNl l2) 52 63) with
                | none => simp [h8] at h
                | some q8 =>
                  simp [h8] at h
                  cases h
                  rfl

/-- Successful `parse_tle` output: the fields come from field extraction
and the semi-major axis is `(mu / n²)^(1/3)` computed from the parsed
mean motion. -/
theorem parse_tle_ok_shape (l1 l2 : String) (d : TleStruct)
    (h : parse_tle l1 l2 = .ok d) :
    parse_fields_opt l1 l2 = some d.toTleData
    ∧ d.sma_km
      = (MU / (((d.mean_motion_rev_per_day : ℚ) : ℝ) * 2 * Real.pi / 86400) ^ 2)
          ^ ((1 : ℝ) / 3) := by
  unfold parse_tle parse_tle_data at h
  cases hp : parse_fields_opt l1 l2 with
  | none => rw [hp] at h; simp at h
  | some d0 =>
    rw [hp] at h
    by_cases hz : d0.mean_motion_rev_per_day = 0
    · simp [hz] at h
    · simp [hz] at h
      cases h
      exact ⟨rfl, by norm_num⟩

/-- The parsed ISS mean motion as a real number. -/
theorem iss_mm_cast :
    ((issData.mean_motion_rev_per_day : ℚ) : ℝ) = 1549285274 / 100000000 := by
  have h : (issData.mean_motion_rev_per_day : ℚ) = (1549285274 : ℚ) / 100000000 := by
    show mkRat 1549285274 100000000 = _
    rw [Rat.mkRat_eq_div]
    norm_num
  rw [h]
  push_cast
  ring

/-- The derived ISS semi-major axis lies within 1 km of 6796 km
(using `3.141592 < π < 3.141593`). -/
theorem iss_sma_bound :
    |(MU / (((issData.mean_motion_rev_per_day : ℚ) : ℝ) * 2 * Real.pi / 86400) ^ 2)
        ^ ((1 : ℝ) / 3) - 6796| < 1 := by
  rw [iss_mm_cast]
  have hπl : 3.141592 < Real.pi := Real.pi_gt_d6
  have hπu : Real.pi < 3.141593 := Real.pi_lt_d6
  have hπ0 : 0 < Real.pi := Real.pi_pos
  set n : ℝ := (1549285274 : ℝ) / 100000000 * 2 * Real.pi / 86400 with hn
  have hn0 : 0 < n := by rw [hn]; positivity
  have hnlo : (1549285274 : ℝ) / 100000000 * 2 * 3.141592 / 86400 < n := by
    rw [hn]; gcongr
  have hnhi : n < (1549285274 : ℝ) / 100000000 * 2 * 3.141593 / 86400 := by
    rw [hn]; gcongr
  have hMU : (0 : ℝ) < MU := by rw [MU]; norm_num
  have hxlo : MU / ((1549285274 : ℝ) / 100000000 * 2 * 3.141593 / 86400) ^ 2
      < MU / n ^ 2 := by
    gcongr
  have hxhi : MU / n ^ 2
      < MU / ((1549285274 : ℝ) / 100000000 * 2 * 3.141592 / 86400) ^ 2 := by
    gcongr
  have hcube_lo : (6795 : ℝ) ^ (3 : Nat)
      < MU / ((1549285274 : ℝ) / 100000000 * 2 * 3.141593 / 86400) ^ 2 := by
    rw [MU]
    norm_num
  have hcube_hi : MU / ((1549285274 : ℝ) / 100000000 * 2 * 3.141592 / 86400) ^ 2
      < (6797 : ℝ) ^ (3 : Nat) := by
    rw [MU]
    norm_num
  have hx0 : (0 : ℝ) < MU / n ^ 2 := by positivity
  have hlow : (6795 : ℝ) < (MU / n ^ 2) ^ ((1 : ℝ) / 3) := by
    have h3 : (6795 : ℝ) ^ (3 : Nat) < MU / n ^ 2 := lt_trans hcube_lo hxlo
    calc (6795 : ℝ)
        = ((6795 : ℝ) ^ (3 : Nat)) ^ ((1 : ℝ) / 3) := by
          rw [← Real.rpow_natCast (6795 : ℝ) 3,
            ← Real.rpow_mul (by norm_num : (0 : ℝ) ≤ 6795)]
          norm_num
      _ < (MU / n ^ 2) ^ ((1 : ℝ) / 3) :=
          Real.rpow_lt_rpow (by positivity) h3 (by norm_num)
  have hhigh : (MU / n ^ 2) ^ ((1 : ℝ) / 3) < 6797 := by
    have h3 : MU / n ^ 2 < (6797 : ℝ) ^ (3 : Nat) := lt_trans hxhi hcube_hi
    calc (MU / n ^ 2) ^ ((1 : ℝ) / 3)
        < ((6797 : ℝ) ^ (3 : Nat)) ^ ((1 : ℝ) / 3) :=
          Real.rpow_lt_rpow hx0.le h3 (by norm_num)
      _ = 6797 := by
          rw [← Real.rpow_natCast (6797 : ℝ) 3,
            ← Real.rpow_mul (by norm_num : (0 : ℝ) ≤ 6797)]
          norm_num
  rw [abs_lt]
  constructor <;> linarith

/-- `parse_tle` succeeds on the reference ISS TLE. -/
theorem parse_iss_ok : parse_tle issL1 issL2 = .ok issStruct := by
  have hd : parse_tle_data issL1 issL2 = .ok issData := by decide
  unfold parse_tle
  rw [hd]
  rfl

/-- C5: the parser expands 2-digit years by the 57-pivot, always derives
the semi-major axis from the parsed mean motion as `(mu/n²)^(1/3)` (never
reading it from the text), and on the reference ISS TLE produces
inclination 51.6444°, eccentricity 0.00057, mean motion 15.49285274
rev/day and a semi-major axis within 1 km of 6796 km. -/
theorem parse_element_set_spec :
    (∀ (l1 l2 : String) (d : TleStruct), parse_tle l1 l2 = .ok d →
        d.sma_km = (MU / (((d.mean_motion_rev_per_day : ℚ) : ℝ)
            * 2 * Real.pi / 86400) ^ 2) ^ ((1 : ℝ) / 3)
        ∧ ∃ yy : Int, pyInt (pySlice (rstripNl l1) 18 20) = some yy
            ∧ d.epoch_year = if yy < 57 then yy + 2000 else yy + 1900)
    ∧ parse_fields_opt issL1 issL2 = some issData
    ∧ issData.epoch_year = 2020
    ∧ issData.inclination = 516444 / 10000
    ∧ issData.eccentricity = 57 / 100000
    ∧ issData.mean_motion_rev_per_day = 1549285274 / 100000000
    ∧ ∀ d : TleStruct, parse_tle issL1 issL2 = .ok d → |d.sma_km - 6796| < 1 := by
  refine ⟨?_, by decide, by decide, ?_, ?_, ?_, ?_⟩
  · intro l1 l2 d h
    obtain ⟨hf, hs⟩ := parse_tle_ok_shape l1 l2 d h
    exact ⟨hs, parse_fields_epoch_pivot l1 l2 d.toTleData hf⟩
  · show mkRat 516444 10000 = _
    rw [Rat.mkRat_eq_div]
    norm_num
  · show mkRat 57 100000 = _
    rw [Rat.mkRat_eq_div]
    norm_num
  · show mkRat 1549285274 100000000 = _
    rw [Rat.mkRat_eq_div]
    norm_num
  · intro d h
    obtain ⟨hf, hs⟩ := parse_tle_ok_shape issL1 issL2 d h
    have hc : parse_fields_opt issL1 issL2 = some issData := by decide
    have hdd : d.toTleData = issData := Option.some.inj (hf.symm.trans hc)
    have hmm : d.mean_motion_rev_per_day = issData.mean_motion_rev_per_day := by
      rw [← hdd]
    rw [hs, hmm]
    exact iss_sma_bound

/-- Witness for C5: the derived-semi-major-axis clause applied to the
parsed ISS structure. -/
theorem parse_element_set_spec_witness :
    issStruct.sma_km = (MU / (((issStruct.mean_motion_rev_per_day : ℚ) : ℝ)
        * 2 * Real.pi / 86400) ^ 2) ^ ((1 : ℝ) / 3) :=
  (parse_element_set_spec.1 issL1 issL2 issStruct parse_iss_ok).1

/-! ### C9: degenerate numeric inputs -/

/-- C9 evaluation: on mean motion `n = 0` the parser fails with the bare
Python `ZeroDivisionError` from `mu / n²` (no `DegenerateOrbitError`
exists anywhere in the code), and with eccentricity exactly 1 the
propagation silently produces the degenerate position `(0, 0, 0)` (the
semi-latus rectum `p = a(1-e²)` collapses to zero) instead of failing. -/
theorem degenerate_inputs_behavior :
    parse_tle issL1 zeroMmL2 = .error .zeroDivisionError
    ∧ ∀ a_km inc_deg raan_deg argp_deg nu : ℝ,
        kepler_to_eci a_km 1 inc_deg raan_deg argp_deg nu = (0, 0, 0) := by
  constructor
  · have hd : parse_tle_data issL1 zeroMmL2
        = .ok { issData with mean_motion_rev_per_day := 0 } := by decide
    unfold parse_tle
    rw [hd]
    rfl
  · intro a_km inc_deg raan_deg argp_deg nu
    simp [kepler_to_eci]

/-! ### C2: Newton-Raphson solver structure -/

/-- The Newton loop performs only pure Newton updates: with `fuel`
iterations allowed it returns the `k`-th Newton iterate of its starting
point for some `k ≤ fuel`. -/
theorem kepLoop_iterate (ecc m : ℝ) :
    ∀ (fuel : Nat) (E : ℝ),
      ∃ k ≤ fuel, kepLoop ecc m fuel E = (newtonStep ecc m)^[k] E := by
  intro fuel
  induction fuel with
  | zero => exact fun E => ⟨0, le_refl 0, rfl⟩
  | succ f ih =>
    intro E
    by_cases h : |(E - ecc * Real.sin E - m) / (1 - ecc * Real.cos E)| < 1e-12
    · refine ⟨1, by omega, ?_⟩
      simp only [kepLoop]
      rw [if_pos h]
      rfl
    · obtain ⟨k, hk, hkeq⟩ := ih (newtonStep ecc m E)
      refine ⟨k + 1, by omega, ?_⟩
      simp only [kepLoop]
      rw [if_neg h, Function.iterate_succ_apply]
      exact hkeq

/-- C2: for `e > 1 + 1e-8` the solver returns the closed-form hyperbolic
fallback; for `e ≤ 1 + 1e-8` it runs Newton-Raphson from `E₀ = M`
(`e < 0.8`) or `E₀ = π`, its result being a pure Newton iterate of order
at most 100, with the true anomaly an `atan2` of `sin ν`, `cos ν` derived
from `E`; the iteration stops as soon as an update has `|ΔE| < 1e-12`;
and in all cases a value is returned (the embedding is total — no
convergence error exists). -/
theorem newtonm_follows_spec (ecc m : ℝ) :
    (1 + 1e-8 < ecc →
        newtonm ecc m = (m / (ecc - 1),
          2 * Real.arctan (Real.sqrt ((ecc + 1) / (ecc - 1))
            * Real.tanh (m / (ecc - 1) / 2))))
    ∧ (ecc ≤ 1 + 1e-8 →
        ∀ E, E = kepLoop ecc m 100 (if ecc < 0.8 then m else Real.pi) →
          (∃ k ≤ 100, E = (newtonStep ecc m)^[k] (if ecc < 0.8 then m else Real.pi))
          ∧ newtonm ecc m
              = (E, atan2 (Real.sqrt (1 - ecc * ecc) * Real.sin E
                      / (1 - ecc * Real.cos E))
                  ((Real.cos E - ecc) / (1 - ecc * Real.cos E))))
    ∧ (∀ E : ℝ, |(E - ecc * Real.sin E - m) / (1 - ecc * Real.cos E)| < 1e-12 →
        ∀ fuel : Nat, kepLoop ecc m (fuel + 1) E
          = E - (E - ecc * Real.sin E - m) / (1 - ecc * Real.cos E)) := by
  refine ⟨?_, ?_, ?_⟩
  · intro h
    unfold newtonm
    rw [if_pos h]
  · intro h E hE
    have hnot : ¬(1 + 1e-8 < ecc) := not_lt.2 h
    constructor
    · obtain ⟨k, hk, hkeq⟩ :=
        kepLoop_iterate ecc m 100 (if ecc < 0.8 then m else Real.pi)
      exact ⟨k, hk, hE.trans hkeq⟩
    · subst hE
      unfold newtonm
      rw [if_neg hnot]
  · intro E hE fuel
    simp only [kepLoop]
    rw [if_pos hE]

/-- Witness for C2: the hyperbolic fallback evaluated at `e = 2`, `M = 3`. -/
theorem newtonm_follows_spec_witness :
    newtonm 2 3 = (3 / (2 - 1),
      2 * Real.arctan (Real.sqrt ((2 + 1) / (2 - 1)) * Real.tanh (3 / (2 - 1) / 2))) :=
  (newtonm_follows_spec 2 3).1 (by norm_num)

/-! ### C4: degree-level wrapper -/

/-- Python float `%` with a positive modulus lands in `[0, y)`. -/
theorem pymod_bounds (x y : ℝ) (hy : 0 < y) : 0 ≤ pymod x y ∧ pymod x y < y := by
  have hfr : pymod x y = y * Int.fract (x / y) := by
    unfold pymod Int.fract
    rw [mul_sub, mul_div_cancel₀ x hy.ne']
  constructor
  · rw [hfr]
    exact mul_nonneg hy.le (Int.fract_nonneg _)
  · rw [hfr]
    exact (mul_lt_mul_of_pos_left (Int.fract_lt_one _) hy).trans_eq (mul_one y)

/-- With one unit of fuel left and a step already below tolerance, the
Newton loop performs that one update and stops. -/
theorem kepLoop_stop (ecc m E : ℝ)
    (h : |(E - ecc * Real.sin E - m) / (1 - ecc * Real.cos E)| < 1e-12)
    (fuel : Nat) :
    kepLoop ecc m (fuel + 1) E
      = E - (E - ecc * Real.sin E - m) / (1 - ecc * Real.cos E) := by
  simp only [kepLoop]
  rw [if_pos h]

/-- Elliptical-branch shape of `newtonm` (`e ≤ 1 + 1e-8`). -/
theorem newtonm_elliptical (ecc m : ℝ) (h : ¬(1 + 1e-8 < ecc)) :
    newtonm ecc m
      = (kepLoop ecc m 100 (if ecc < 0.8 then m else Real.pi),
         atan2 (Real.sqrt (1 - ecc * ecc)
              * Real.sin (kepLoop ecc m 100 (if ecc < 0.8 then m else Real.pi))
              / (1 - ecc * Real.cos (kepLoop ecc m 100 (if ecc < 0.8 then m else Real.pi))))
           ((Real.cos (kepLoop ecc m 100 (if ecc < 0.8 then m else Real.pi)) - ecc)
              / (1 - ecc * Real.cos (kepLoop ecc m 100 (if ecc < 0.8 then m else Real.pi))))) := by
  unfold newtonm
  rw [if_neg h]

/-- C4 (amended): `solve_true_anomaly` wraps its input into `[0, 2π)`
radians (i.e. `[0, 360)` degrees) before solving, and its output always
lies in the half-open interval `[-180, 180)` (not `(-180, 180]`). -/
theorem solve_true_anomaly_range (ecc M_deg : ℝ) :
    solve_true_anomaly ecc M_deg
      = pymod (degreesR ((newtonm ecc (pymod (radiansR M_deg) (2 * Real.pi))).2)
            + 180) 360 - 180
    ∧ 0 ≤ pymod (radiansR M_deg) (2 * Real.pi)
    ∧ pymod (radiansR M_deg) (2 * Real.pi) < 2 * Real.pi
    ∧ -180 ≤ solve_true_anomaly ecc M_deg
    ∧ solve_true_anomaly ecc M_deg < 180 := by
  have h2π : (0 : ℝ) < 2 * Real.pi := by positivity
  obtain ⟨hw0, hw1⟩ := pymod_bounds (radiansR M_deg) _ h2π
  obtain ⟨ho0, ho1⟩ := pymod_bounds
    (degreesR ((newtonm ecc (pymod (radiansR M_deg) (2 * Real.pi))).2) + 180) 360
    (by norm_num)
  have heq : solve_true_anomaly ecc M_deg
      = pymod (degreesR ((newtonm ecc (pymod (radiansR M_deg) (2 * Real.pi))).2)
            + 180) 360 - 180 := rfl
  exact ⟨heq, hw0, hw1, by rw [heq]; linarith, by rw [heq]; linarith⟩

/-- Counterexample to C4 as stated: at `e = 0`, `M = 180°` the solver
returns true anomaly `ν = π`, and the final wrap maps 180° to `-180`,
which is outside the claimed interval `(-180, 180]`. -/
theorem solve_true_anomaly_boundary : solve_true_anomaly 0 180 = -180 := by
  have hrad : radiansR (180 : ℝ) = Real.pi := by
    unfold radiansR
    ring
  have hmod1 : pymod Real.pi (2 * Real.pi) = Real.pi := by
    have hhalf : Real.pi / (2 * Real.pi) = 1 / 2 := by
      rw [div_eq_iff ((by positivity : (0 : ℝ) < 2 * Real.pi).ne')]
      ring
    unfold pymod
    rw [hhalf, show ⌊(1 : ℝ) / 2⌋ = 0 by
      rw [Int.floor_eq_zero_iff]
      constructor <;> norm_num]
    norm_num
  have h1 : solve_true_anomaly 0 180
      = pymod (degreesR ((newtonm 0 (pymod (radiansR 180) (2 * Real.pi))).2)
            + 180) 360 - 180 := rfl
  rw [h1, hrad, hmod1, newtonm_elliptical 0 Real.pi (by norm_num),
    if_pos (by norm_num : (0 : ℝ) < 0.8)]
  have hdE : (Real.pi - 0 * Real.sin Real.pi - Real.pi)
      / (1 - 0 * Real.cos Real.pi) = 0 := by
    norm_num
  have hloop : kepLoop 0 Real.pi 100 Real.pi = Real.pi := by
    show kepLoop 0 Real.pi (99 + 1) Real.pi = Real.pi
    rw [kepLoop_stop 0 Real.pi Real.pi (by rw [hdE]; norm_num) 99, hdE]
    norm_num
  rw [hloop]
  have hsv : Real.sqrt (1 - 0 * 0) * Real.sin Real.pi
      / (1 - 0 * Real.cos Real.pi) = 0 := by
    simp [Real.sin_pi]
  have hcv : (Real.cos Real.pi - 0) / (1 - 0 * Real.cos Real.pi) = -1 := by
    simp [Real.cos_pi]
  rw [hsv, hcv]
  have hatan : atan2 0 (-1) = Real.pi := by
    unfold atan2
    rw [show (⟨-1, 0⟩ : ℂ) = (-1 : ℂ) by
      apply Complex.ext <;> simp]
    exact Complex.arg_neg_one
  rw [hatan]
  have hdeg : degreesR Real.pi = 180 := by
    unfold degreesR
    field_simp
  rw [hdeg]
  have hmod2 : pymod (180 + 180 : ℝ) 360 = 0 := by
    unfold pymod
    rw [show (180 + 180 : ℝ) / 360 = 1 by norm_num, Int.floor_one]
    norm_num
  rw [hmod2]
  norm_num

/-! ### C1: propagation refinement -/

/-- The nine scalar rotation entries written out in `kepler_to_eci` are
exactly the matrix product `Rz(Ω)·Rx(i)·Rz(ω)` applied to the perifocal
vector. -/
theorem kepler_to_eci_rotation (a_km e inc_deg raan_deg argp_deg nu : ℝ) :
    kepler_to_eci a_km e inc_deg raan_deg argp_deg nu
      = ((Rz (radiansR raan_deg) * Rx (radiansR inc_deg)
            * Rz (radiansR argp_deg)).mulVec
          ![a_km * (1 - e * e) / (1 + e * Real.cos nu) * Real.cos nu,
            a_km * (1 - e * e) / (1 + e * Real.cos nu) * Real.sin nu, 0] 0,
         (Rz (radiansR raan_deg) * Rx (radiansR inc_deg)
            * Rz (radiansR argp_deg)).mulVec
          ![a_km * (1 - e * e) / (1 + e * Real.cos nu) * Real.cos nu,
            a_km * (1 - e * e) / (1 + e * Real.cos nu) * Real.sin nu, 0] 1,
         (Rz (radiansR raan_deg) * Rx (radiansR inc_deg)
            * Rz (radiansR argp_deg)).mulVec
          ![a_km * (1 - e * e) / (1 + e * Real.cos nu) * Real.cos nu,
            a_km * (1 - e * e) / (1 + e * Real.cos nu) * Real.sin nu, 0] 2) := by
  unfold kepler_to_eci Rz Rx
  simp [Matrix.mul_apply, Matrix.mulVec, Matrix.dotProduct, Fin.sum_univ_three,
    Prod.mk.injEq]
  refine ⟨by ring, by ring, by ring⟩

/-- The accumulation loop is the triple of per-component maps. -/
theorem propagateLoop_map (step : ℝ → ℝ × ℝ × ℝ) (ts : List ℝ) :
    propagateLoop step ts
      = (ts.map (fun t => (step t).1), ts.map (fun t => (step t).2.1),
         ts.map (fun t => (step t).2.2)) := by
  induction ts with
  | nil => rfl
  | cons t ts ih => simp [propagateLoop, ih]

/-- C1: `propagate_kepler` returns exactly one coordinate per input
offset in input order — its three output lists are the input list mapped
through the per-sample specification `eciSpecSample` (mean-motion
conversion, linear mean-anomaly advance mod 2π, Kepler solve, conic
radius, perifocal coordinates, and the composite rotation
`Rz(Ω)·Rx(i)·Rz(ω)`). -/
theorem propagate_matches_spec (a_km e inc_deg raan_deg argp_deg
    mean_anom_deg mm : ℝ) (ts : List ℝ) :
    propagate_kepler a_km e inc_deg raan_deg argp_deg mean_anom_deg mm ts
      = (ts.map (fun t =>
            eciSpecSample a_km e inc_deg raan_deg argp_deg mean_anom_deg mm t 0),
         ts.map (fun t =>
            eciSpecSample a_km e inc_deg raan_deg argp_deg mean_anom_deg mm t 1),
         ts.map (fun t =>
            eciSpecSample a_km e inc_deg raan_deg argp_deg mean_anom_deg mm t 2)) := by
  unfold propagate_kepler
  rw [propagateLoop_map]
  simp only [Prod.mk.injEq]
  refine ⟨?_, ?_, ?_⟩ <;>
    · apply List.map_congr_left
      intro t _
      rw [kepler_to_eci_rotation]
      rfl
